import Mathlib

/-!
Shallow embedding of the trade risk-control and self-improvement analytics
engine of the prediction-market paper-trading agent
(backend/trading.py, backend/analysis/improvement.py,
scripts/check_resolutions.py, backend/models/trade.py).

Modelling conventions:
- dollar amounts and prices are rationals (the source uses floats);
- timestamps are integers counted in days (datetime values in the source;
  only ordering and day differences are ever used);
- Python dicts keyed by strings are association lists in insertion order;
- display strings that interpolate numeric values keep only their static
  text, since no claim depends on the interpolated digits;
- the database session parameter of the source functions is passed around
  but never read inside them, so the embedded functions take the trade
  ledger (a list of trades) explicitly instead.
-/

/-- Lifecycle state of a trade (models.trade.TradeStatus). -/
inductive TradeStatus
  | open_
  | resolved_win
  | resolved_loss
  | cancelled
deriving DecidableEq, Repr, BEq

/-- Side of a trade (models.trade.TradeSide). -/
inductive TradeSide
  | yes
  | no
deriving DecidableEq, Repr, BEq

/-- The ledger record (models.trade.Trade / TradeDB). -/
structure Trade where
  id : String
  created_at : ℤ
  platform : String
  market_id : String
  market_question : String
  market_category : Option String
  market_end_date : Option ℤ
  side : TradeSide
  entry_price : ℚ
  amount : ℚ
  shares : Option ℚ
  strategy : String
  status : TradeStatus
  resolution_date : Option ℤ
  resolution_outcome : Option TradeSide
  closing_price : Option ℚ
  pnl : Option ℚ
  roi : Option ℚ
  clv : Option ℚ
deriving DecidableEq, Repr, BEq

/-- A prediction market snapshot (models.market.Market); fields the core
never reads (description, liquidity, analysis fields, timestamps) are
elided. -/
structure Market where
  id : String
  platform : String
  market_id : String
  question : String
  category : Option String
  end_date : Option ℤ
  yes_price : Option ℚ
  no_price : Option ℚ
  volume : Option ℚ
deriving DecidableEq, Repr, BEq

/-- A strategy's proposal to trade (models.market.MarketOpportunity). -/
structure MarketOpportunity where
  market : Market
  strategy : String
  signal_strength : ℚ
  recommended_side : TradeSide
  recommended_amount : ℚ
  expected_value : ℚ
  reasoning : String
deriving DecidableEq, Repr, BEq

/-- An open position projected from one trade (trading.Position). -/
structure Position where
  trade_id : String
  platform : String
  market_id : String
  market_question : String
  side : TradeSide
  entry_price : ℚ
  amount : ℚ
  shares : ℚ
  current_value : ℚ
  unrealized_pnl : ℚ
  strategy : String
  opened_at : ℤ
deriving DecidableEq, Repr, BEq

/-- Exposure snapshot (trading.ExposureReport).  The two dict-valued
fields keep Python's insertion order as association lists. -/
structure ExposureReport where
  total_exposure : ℚ
  available_capital : ℚ
  position_count : ℕ
  by_platform : List (String × ℚ)
  by_strategy : List (String × ℚ)
  daily_traded : ℚ
  daily_limit : ℚ
  daily_remaining : ℚ
deriving DecidableEq, Repr, BEq

/-- The details dict of a risk check result.  Each denial carries exactly
the numeric fields the source puts into the dict; the passed case carries
the would-be new totals and has no limit tag. -/
inductive RiskDetails
  | max_position_size_exceeded (requested mx : ℚ)
  | max_total_exposure_exceeded (current after mx : ℚ)
  | daily_volume_exceeded (today after mx : ℚ)
  | positions_per_market_exceeded (current mx : ℕ)
  | all_passed (trade_amount new_total_exposure new_daily_volume : ℚ)
deriving DecidableEq, Repr, BEq

/-- Value of the "limit" key of the details dict, when present. -/
def RiskDetails.limit : RiskDetails → Option String
  | .max_position_size_exceeded _ _ => some ("max_position_size")
  | .max_total_exposure_exceeded _ _ _ => some ("max_total_exposure")
  | .daily_volume_exceeded _ _ _ => some ("daily_volume")
  | .positions_per_market_exceeded _ _ => some ("positions_per_market")
  | .all_passed _ _ _ => none

/-- Result of the risk limit checks (trading.RiskCheckResult). -/
structure RiskCheckResult where
  allowed : Bool
  reason : String
  details : RiskDetails
deriving DecidableEq, Repr, BEq

/-- Result of trade execution (trading.TradeResult). -/
structure TradeResult where
  success : Bool
  trade : Option Trade
  error : Option String
  paper_trade : Bool
deriving DecidableEq, Repr, BEq

/-- Application settings used by the trading layer (config.Settings). -/
structure Settings where
  max_position_size : ℚ
  max_total_exposure : ℚ
  paper_trading : Bool
deriving DecidableEq, Repr, BEq

/-- Risk limits held by trading.RiskManager. -/
structure RiskManager where
  max_position_size : ℚ
  max_total_exposure : ℚ
  max_daily_volume : ℚ
  max_positions_per_market : ℕ
deriving DecidableEq, Repr, BEq

/-- RiskManager.__init__: the daily-volume default is computed as
Python's truthiness test "max_daily_volume or max_total_exposure * 2",
so both None and 0.0 fall back to twice the total-exposure cap. -/
def RiskManager.mk_init (max_position_size max_total_exposure : ℚ)
    (max_daily_volume : Option ℚ) (max_positions_per_market : ℕ) : RiskManager :=
  { max_position_size := max_position_size
    max_total_exposure := max_total_exposure
    max_daily_volume :=
      match max_daily_volume with
      | none => max_total_exposure * 2
      | some v => if v = 0 then max_total_exposure * 2 else v
    max_positions_per_market := max_positions_per_market }

/-- RiskManager.check_limits: the four limit checks in source order with
short-circuit on the first failure. -/
def RiskManager.check_limits (rm : RiskManager) (opportunity : MarketOpportunity)
    (current_exposure : ExposureReport) (existing_positions : List Position) :
    RiskCheckResult :=
  let trade_amount := opportunity.recommended_amount
  if trade_amount > rm.max_position_size then
    { allowed := false
      reason := "Trade amount exceeds max position size"
      details := .max_position_size_exceeded trade_amount rm.max_position_size }
  else
    let new_total := current_exposure.total_exposure + trade_amount
    if new_total > rm.max_total_exposure then
      { allowed := false
        reason := "Trade would exceed max total exposure"
        details := .max_total_exposure_exceeded current_exposure.total_exposure
          new_total rm.max_total_exposure }
    else
      let new_daily := current_exposure.daily_traded + trade_amount
      if new_daily > rm.max_daily_volume then
        { allowed := false
          reason := "Trade would exceed daily limit"
          details := .daily_volume_exceeded current_exposure.daily_traded
            new_daily rm.max_daily_volume }
      else
        let market_positions := existing_positions.filter (fun p =>
          decide (p.platform = opportunity.market.platform) &&
            decide (p.market_id = opportunity.market.market_id))
        if market_positions.length ≥ rm.max_positions_per_market then
          { allowed := false
            reason := "Already have position(s) in this market"
            details := .positions_per_market_exceeded market_positions.length
              rm.max_positions_per_market }
        else
          { allowed := true
            reason := "All risk checks passed"
            details := .all_passed trade_amount new_total new_daily }

/-- The four checks restated from the specification's words (section 4.1):
an ordered list of condition/denial pairs, where the returned result is
the first failing check, or the all-passed report. -/
def check_limits_spec (rm : RiskManager) (opportunity : MarketOpportunity)
    (current_exposure : ExposureReport) (existing_positions : List Position) :
    RiskCheckResult :=
  let amount := opportunity.recommended_amount
  let new_total := current_exposure.total_exposure + amount
  let new_daily := current_exposure.daily_traded + amount
  let open_in_market := (existing_positions.filter (fun p =>
    decide (p.platform = opportunity.market.platform) &&
      decide (p.market_id = opportunity.market.market_id))).length
  let checks : List (Bool × RiskCheckResult) :=
    [ (decide (amount > rm.max_position_size),
        { allowed := false
          reason := "Trade amount exceeds max position size"
          details := .max_position_size_exceeded amount rm.max_position_size }),
      (decide (new_total > rm.max_total_exposure),
        { allowed := false
          reason := "Trade would exceed max total exposure"
          details := .max_total_exposure_exceeded current_exposure.total_exposure
            new_total rm.max_total_exposure }),
      (decide (new_daily > rm.max_daily_volume),
        { allowed := false
          reason := "Trade would exceed daily limit"
          details := .daily_volume_exceeded current_exposure.daily_traded
            new_daily rm.max_daily_volume }),
      (decide (open_in_market ≥ rm.max_positions_per_market),
        { allowed := false
          reason := "Already have position(s) in this market"
          details := .positions_per_market_exceeded open_in_market
            rm.max_positions_per_market }) ]
  match checks.find? (fun c => c.1) with
  | some c => c.2
  | none =>
    { allowed := true
      reason := "All risk checks passed"
      details := .all_passed amount new_total new_daily }

/-- PositionManager.get_positions: every ledger row with status Open,
projected to a Position; paper trading marks positions at entry value with
zero unrealized PnL. -/
def get_positions (ledger : List Trade) : List Position :=
  (ledger.filter (fun t => decide (t.status = TradeStatus.open_))).map (fun t =>
    { trade_id := t.id
      platform := t.platform
      market_id := t.market_id
      market_question := t.market_question
      side := t.side
      entry_price := t.entry_price
      amount := t.amount
      shares := t.shares.getD 0
      current_value := t.amount
      unrealized_pnl := 0
      strategy := t.strategy
      opened_at := t.created_at })

/-- Update of a Python dict entry d[k] = d.get(k, 0) + v, preserving
insertion order. -/
def dictAdd (d : List (String × ℚ)) (k : String) (v : ℚ) : List (String × ℚ) :=
  match d with
  | [] => [(k, v)]
  | kv :: rest =>
    if kv.1 = k then (kv.1, kv.2 + v) :: rest else kv :: dictAdd rest k v

/-- Lookup in the association-list dict, defaulting to 0 (Python's
d.get(k, 0)). -/
def dictGet (d : List (String × ℚ)) (k : String) : ℚ :=
  match d with
  | [] => 0
  | kv :: rest => if kv.1 = k then kv.2 else dictGet rest k

/-- PositionManager.get_exposure: totals and groupings over open
positions, plus the amount traded today over trades of every status
created since local-day start (the today_start parameter stands for
datetime.combine(date.today(), min.time())). -/
def get_exposure (settings : Settings) (ledger : List Trade) (today_start : ℤ) :
    ExposureReport :=
  let positions := get_positions ledger
  let total_exposure := (positions.map (fun p => p.amount)).sum
  let by_platform := positions.foldl (fun d p => dictAdd d p.platform p.amount) []
  let by_strategy := positions.foldl (fun d p => dictAdd d p.strategy p.amount) []
  let today_trades := ledger.filter (fun t => decide (today_start ≤ t.created_at))
  let daily_traded := (today_trades.map (fun t => t.amount)).sum
  let daily_limit := settings.max_total_exposure * 2
  { total_exposure := total_exposure
    available_capital := max 0 (settings.max_total_exposure - total_exposure)
    position_count := positions.length
    by_platform := by_platform
    by_strategy := by_strategy
    daily_traded := daily_traded
    daily_limit := daily_limit
    daily_remaining := max 0 (daily_limit - daily_traded) }

/-- Entry price of the recommended side: the market's YES price for a YES
recommendation, its NO price for a NO recommendation (the conditional
expression at the top of PaperTrader.execute_trade). -/
def recommended_entry_price (opportunity : MarketOpportunity) : Option ℚ :=
  match opportunity.recommended_side with
  | .yes => opportunity.market.yes_price
  | .no => opportunity.market.no_price

/-- PaperTrader.execute_trade: derives the entry price from the
recommended side, fails on a missing or non-positive price before any
ledger write, otherwise appends a new Open trade.  The trade id and the
current time are passed in (uuid4 and utcnow in the source); the JSONL
audit log write is an external sink and is not modelled. -/
def PaperTrader.execute_trade (opportunity : MarketOpportunity)
    (ledger : List Trade) (trade_id : String) (now : ℤ) :
    TradeResult × List Trade :=
  let entry_price := recommended_entry_price opportunity
  match entry_price with
  | none =>
    ({ success := false, trade := none
       error := some ("Invalid entry price"), paper_trade := true }, ledger)
  | some p =>
    if p ≤ 0 then
      ({ success := false, trade := none
         error := some ("Invalid entry price"), paper_trade := true }, ledger)
    else
      let shares := opportunity.recommended_amount / p
      let t : Trade :=
        { id := trade_id
          created_at := now
          platform := opportunity.market.platform
          market_id := opportunity.market.market_id
          market_question := opportunity.market.question
          market_category := opportunity.market.category
          market_end_date := opportunity.market.end_date
          side := opportunity.recommended_side
          entry_price := p
          amount := opportunity.recommended_amount
          shares := some shares
          strategy := opportunity.strategy
          status := .open_
          resolution_date := none
          resolution_outcome := none
          closing_price := none
          pnl := none
          roi := none
          clv := none }
      ({ success := true, trade := some t, error := none, paper_trade := true },
        ledger ++ [t])

/-- Trading engine configuration (trading.TradingEngine.__init__); only
the paper trader is modelled, since the live trader is a fail-closed stub
that raises NotImplementedError. -/
structure TradingEngine where
  paper_trading : Bool
  risk_manager : RiskManager
deriving DecidableEq, Repr, BEq

/-- TradingEngine.__init__ builds its RiskManager from the settings
defaults (max_daily_volume None, one position per market). -/
def TradingEngine.mk_init (settings : Settings) : TradingEngine :=
  { paper_trading := settings.paper_trading
    risk_manager :=
      RiskManager.mk_init settings.max_position_size settings.max_total_exposure
        none 1 }

/-- TradingEngine.execute_opportunity: read positions and exposure, run the
risk checks unless forced, and on allow delegate to the paper executor.
Returns the result together with the ledger after the call. -/
def TradingEngine.execute_opportunity (engine : TradingEngine)
    (settings : Settings) (ledger : List Trade) (opportunity : MarketOpportunity)
    (force : Bool) (today_start : ℤ) (trade_id : String) (now : ℤ) :
    TradeResult × List Trade :=
  let positions := get_positions ledger
  let exposure := get_exposure settings ledger today_start
  if force = false then
    let risk_check :=
      engine.risk_manager.check_limits opportunity exposure positions
    if risk_check.allowed = false then
      ({ success := false, trade := none, error := some risk_check.reason
         paper_trade := engine.paper_trading }, ledger)
    else
      PaperTrader.execute_trade opportunity ledger trade_id now
  else
    PaperTrader.execute_trade opportunity ledger trade_id now

/-!
Analysis module (backend/analysis/improvement.py) and the resolution
script (scripts/check_resolutions.py).
-/

/-- Rounding to two decimals, as Python's round(x, 2).  Python rounds
half-to-even while Mathlib's round is half-up; the two agree away from
exact half-ties, and no value in this development lands on a tie. -/
def round2 (x : ℚ) : ℚ := ((round (x * 100) : ℤ) : ℚ) / 100

/-- Rounding to two decimals on the reals (for the Sharpe-like ratio). -/
noncomputable def round2_real (x : ℝ) : ℝ := ((round (x * 100) : ℤ) : ℝ) / 100

/-- Python's truthiness conjunction "clv and clv > 0": None and 0.0 are
falsy, so the test also fails when the CLV is exactly zero. -/
def clv_and_pos (clv : Option ℚ) : Bool :=
  match clv with
  | none => false
  | some c => if c = 0 then false else decide (c > 0)

/-- Python's truthiness conjunction "clv and clv < 0". -/
def clv_and_neg (clv : Option ℚ) : Bool :=
  match clv with
  | none => false
  | some c => if c = 0 then false else decide (c < 0)

/-- Python's "x or default" on an optional float: None and 0.0 both fall
back to the default. -/
def py_or_q (x : Option ℚ) (default : ℚ) : ℚ :=
  match x with
  | none => default
  | some v => if v = 0 then default else v

/-- Python's "if not items: items.append(placeholder)" tail pattern used
by the lesson-list builders. -/
def placeholder_if_empty (l : List String) (ph : String) : List String :=
  if l.isEmpty then [ph] else l

/-- Analysis of a single resolved trade (models.performance.TradeAnalysis). -/
structure TradeAnalysis where
  trade_id : String
  strategy : String
  won : Bool
  pnl : ℚ
  roi : ℚ
  entry_price : ℚ
  closing_price : Option ℚ
  clv : Option ℚ
  beat_closing_line : Option Bool
  was_good_entry : Bool
  was_good_sizing : Bool
  what_went_right : List String
  what_went_wrong : List String
  suggested_improvements : List String
deriving DecidableEq, Repr, BEq

namespace ResolutionAnalyzer

/-- ResolutionAnalyzer._calculate_pnl. -/
def calculate_pnl (trade : Trade) (won : Bool) : ℚ :=
  if won then (trade.amount / trade.entry_price) * (1 - trade.entry_price)
  else -trade.amount

/-- ResolutionAnalyzer._calculate_clv: percentage-of-entry-price CLV,
rounded to 2 decimals; None without a closing price. -/
def calculate_clv (trade : Trade) : Option ℚ :=
  match trade.closing_price with
  | none => none
  | some closing =>
    match trade.side with
    | .yes =>
      some (round2 (((closing - trade.entry_price) / trade.entry_price) * 100))
    | .no =>
      let our_implied_yes := 1 - trade.entry_price
      some (round2 (((our_implied_yes - closing) / (1 - trade.entry_price)) * 100))

/-- ResolutionAnalyzer._assess_entry_quality. -/
def assess_entry_quality (clv : Option ℚ) : Bool :=
  match clv with
  | none => true
  | some c => decide (c > 0)

/-- ResolutionAnalyzer._assess_sizing_quality. -/
def assess_sizing_quality (trade : Trade) : Bool :=
  if trade.amount > 50 then false
  else if trade.amount < 1 then false
  else true

/-- ResolutionAnalyzer._identify_positives.  Interpolated numbers are
elided from the strings; the rule structure and order are the source's.
An explicit placeholder is appended when no rule fired. -/
def identify_positives (trade : Trade) (won : Bool) (clv : Option ℚ) :
    List String :=
  let l1 :=
    match clv with
    | some c =>
      if c > 0 then
        ["Positive CLV - beat the closing line"] ++
          (if c > 10 then ["Exceptional edge identified (>10% CLV)"] else [])
      else []
    | none => []
  let l2 :=
    if won then
      ["Trade resolved in our favor"] ++
        (if trade.entry_price < 3/10 then
          ["Correctly identified underpriced longshot"]
        else if trade.entry_price > 7/10 then
          ["Correctly faded overpriced favorite"]
        else [])
    else []
  let l3 :=
    if decide (trade.strategy = "contrarian") && clv_and_pos clv then
      ["Contrarian view validated - market was wrong"]
    else []
  let l4 :=
    if decide (trade.strategy = "momentum") && won then
      ["Momentum strategy captured directional move"]
    else []
  let l5 :=
    match trade.closing_price with
    | some closing =>
      if |closing - trade.entry_price| > 1/10 then
        ["Good timing - price moved after entry"]
      else []
    | none => []
  let positives := l1 ++ l2 ++ l3 ++ l4 ++ l5
  placeholder_if_empty positives "No clear positives identified - review needed"

/-- ResolutionAnalyzer._identify_negatives.  Note: unlike the positives
and the suggestions, this list has no placeholder branch in the source. -/
def identify_negatives (trade : Trade) (won : Bool) (clv : Option ℚ) :
    List String :=
  let n1 :=
    match clv with
    | some c =>
      if c < 0 then
        ["Negative CLV - entered at worse price than close"] ++
          (if c < -10 then ["Severely mispriced entry (>10% worse than close)"]
           else [])
      else []
    | none => []
  let n2 :=
    if won = false then
      ["Trade resolved against us"] ++
        (if trade.entry_price > 7/10 then
          ["Lost on high-probability position - consider hedging"]
        else if trade.entry_price < 3/10 then
          ["Longshot did not hit - expected but painful"]
        else [])
    else []
  let n3 :=
    match clv with
    | some c =>
      if c < 0 && won then
        ["Won despite negative CLV - got lucky, do not repeat this entry"]
      else []
    | none => []
  let n4 :=
    if trade.amount > 50 then ["Position size may be too large"] else []
  let n5 :=
    if decide (trade.market_category = some ("politics")) ||
        decide (trade.market_category = some ("crypto")) then
      match clv with
      | some c =>
        if c < -5 then ["Underperformed in category - high volatility category"]
        else []
      | none => []
    else []
  n1 ++ n2 ++ n3 ++ n4 ++ n5

/-- ResolutionAnalyzer._suggest_trade_improvements, with the explicit
placeholder when no rule fired. -/
def suggest_trade_improvements (trade : Trade) (won : Bool) (clv : Option ℚ) :
    List String :=
  let s1 :=
    match clv with
    | some c =>
      (if c < -5 then
        ["Wait for better entry price - consider limit orders",
          "Check if news was already priced in before entering"]
      else []) ++
        (if c < -10 then
          ["Review information sources - market knew something we did not"]
        else [])
    | none => []
  let s2 :=
    (if trade.entry_price > 85/100 then
      ["High entry prices leave little room for profit - require higher edge"]
    else []) ++
      (if trade.entry_price < 15/100 then
        ["Low entry prices are often longshots - ensure sufficient edge"]
      else [])
  let s3 :=
    if decide (trade.strategy = "momentum") && clv_and_neg clv then
      ["Momentum entry may have been too late - price already moved"]
    else []
  let s4 :=
    if decide (trade.strategy = "contrarian") && won = false && clv_and_neg clv then
      ["Contrarian view may have been wrong - review thesis",
        "Consider: was this truly contrarian or just wrong?"]
    else []
  let s5 :=
    if trade.amount > 30 && won = false then
      ["Consider smaller position sizes for uncertain bets"]
    else []
  let s6 :=
    match trade.market_end_date with
    | some end_date =>
      if end_date - trade.created_at > 30 && clv_and_neg clv then
        ["Long-dated markets: consider scaling in over time"]
      else []
    | none => []
  let suggestions := s1 ++ s2 ++ s3 ++ s4 ++ s5 ++ s6
  placeholder_if_empty suggestions
    "Continue current approach - this was a reasonable trade"

/-- ResolutionAnalyzer.analyze_resolved_trade: raises (here: returns an
error) on a non-resolved trade, otherwise assembles the full analysis. -/
def analyze_resolved_trade (trade : Trade) : Except String TradeAnalysis :=
  if (decide (trade.status = TradeStatus.resolved_win) ||
      decide (trade.status = TradeStatus.resolved_loss)) = false then
    .error ("Trade is not resolved")
  else
    let won := decide (trade.status = TradeStatus.resolved_win)
    let pnl := py_or_q trade.pnl (calculate_pnl trade won)
    let roi := if trade.amount > 0 then pnl / trade.amount * 100 else 0
    let clv := calculate_clv trade
    let beat_closing_line :=
      match clv with
      | none => none
      | some c => some (decide (c > 0))
    .ok
      { trade_id := trade.id
        strategy := trade.strategy
        won := won
        pnl := pnl
        roi := roi
        entry_price := trade.entry_price
        closing_price := trade.closing_price
        clv := clv
        beat_closing_line := beat_closing_line
        was_good_entry := assess_entry_quality clv
        was_good_sizing := assess_sizing_quality trade
        what_went_right := identify_positives trade won clv
        what_went_wrong := identify_negatives trade won clv
        suggested_improvements := suggest_trade_improvements trade won clv }

end ResolutionAnalyzer

namespace check_resolutions

/-- The resolution script's calculate_clv (scripts/check_resolutions.py):
a raw price difference, positive when the entry beat the closing line,
together with the beat-closing-line flag. -/
def calculate_clv (trade : Trade) (closing_price : ℚ) : ℚ × Bool :=
  let clv :=
    match trade.side with
    | .yes => closing_price - trade.entry_price
    | .no => trade.entry_price - closing_price
  (clv, decide (clv > 0))

end check_resolutions

/-- Strategy performance metrics (models.performance.StrategyPerformance);
the by_category and by_platform breakdown dicts are not consumed by any
property verified here and are elided. -/
structure StrategyPerformance where
  strategy : String
  period : String
  start_date : ℤ
  end_date : ℤ
  total_trades : ℕ := 0
  open_trades : ℕ := 0
  resolved_trades : ℕ := 0
  wins : ℕ := 0
  losses : ℕ := 0
  win_rate : ℚ := 0
  total_wagered : ℚ := 0
  total_pnl : ℚ := 0
  roi : ℚ := 0
  avg_clv : ℚ := 0
  clv_positive_count : ℕ := 0
  clv_positive_rate : ℚ := 0
  max_drawdown : ℚ := 0
  sharpe_ratio : Option ℝ := none

namespace StrategyEvaluator

/-- Timestamps are counted in days from 2020-01-01, the fixed epoch floor
the source uses for the all_time period. -/
def datetime_2020_1_1 : ℤ := 0

/-- StrategyEvaluator._get_period_start. -/
def get_period_start (period : String) (end_date : ℤ) : ℤ :=
  if period = "daily" then end_date - 1
  else if period = "weekly" then end_date - 7
  else if period = "monthly" then end_date - 30
  else datetime_2020_1_1

/-- Sort key of _calculate_max_drawdown: resolution date with creation
date as fallback (datetimes are never falsy in Python, so "or" is getD). -/
def drawdown_key (t : Trade) : ℤ := t.resolution_date.getD t.created_at

/-- Comparison passed to the stable sort. -/
def drawdown_le (a b : Trade) : Bool := decide (drawdown_key a ≤ drawdown_key b)

/-- One iteration of the drawdown loop: accumulate PnL, track the running
peak, keep the largest peak-to-trough gap seen so far. -/
def drawdown_step (state : ℚ × ℚ × ℚ) (pnl : ℚ) : ℚ × ℚ × ℚ :=
  let cumulative_pnl := state.1 + pnl
  let peak := if cumulative_pnl > state.2.1 then cumulative_pnl else state.2.1
  let drawdown := peak - cumulative_pnl
  let max_dd := if drawdown > state.2.2 then drawdown else state.2.2
  (cumulative_pnl, peak, max_dd)

/-- StrategyEvaluator._calculate_max_drawdown. -/
def calculate_max_drawdown (trades : List Trade) : ℚ :=
  if trades.isEmpty then 0
  else
    let sorted_trades := trades.mergeSort drawdown_le
    (sorted_trades.foldl (fun state t => drawdown_step state (t.pnl.getD 0))
      ((0 : ℚ), (0 : ℚ), (0 : ℚ))).2.2

/-- The per-trade returns used by _calculate_sharpe: each resolved trade's
PnL, or 0 when unset. -/
def pnl_returns (trades : List Trade) : List ℚ :=
  trades.map (fun t => t.pnl.getD 0)

/-- statistics.mean of the PnL returns. -/
def mean_pnl (trades : List Trade) : ℚ :=
  (pnl_returns trades).sum / ((pnl_returns trades).length : ℚ)

/-- Sample variance of the PnL returns; statistics.stdev is its square
root. -/
def var_pnl (trades : List Trade) : ℚ :=
  ((pnl_returns trades).map (fun r => (r - mean_pnl trades) ^ 2)).sum /
    (((pnl_returns trades).length : ℚ) - 1)

/-- StrategyEvaluator._calculate_sharpe: None on fewer than 2 trades or a
zero standard deviation, otherwise the risk-adjusted ratio rounded to 2
decimals.  statistics.stdev is the square root of the sample variance,
and sqrt v = 0 iff v ≤ 0, so the source's "stdev == 0" guard is the
variance test below. -/
noncomputable def calculate_sharpe (trades : List Trade) : Option ℝ :=
  if trades.length < 2 then none
  else if var_pnl trades ≤ 0 then none
  else
    some (round2_real ((mean_pnl trades : ℝ) / Real.sqrt ((var_pnl trades : ℚ) : ℝ)))

/-- The window filter of evaluate_strategy: trades of the strategy created
inside the date range. -/
def strategy_window_trades (trades : List Trade) (strategy_name : String)
    (start_date end_date : ℤ) : List Trade :=
  trades.filter (fun t =>
    decide (t.strategy = strategy_name) && decide (start_date ≤ t.created_at) &&
      decide (t.created_at ≤ end_date))

/-- The resolved subset (status resolved_win or resolved_loss). -/
def resolved_of (trades : List Trade) : List Trade :=
  trades.filter (fun t =>
    decide (t.status = TradeStatus.resolved_win) ||
      decide (t.status = TradeStatus.resolved_loss))

/-- StrategyEvaluator.evaluate_strategy: filter the ledger to the strategy
and window, then compute the metrics; an empty filtered list returns the
all-default performance record. -/
noncomputable def evaluate_strategy (trades : List Trade)
    (strategy_name : String) (period : String)
    (start_date end_date : Option ℤ) (now : ℤ) : StrategyPerformance :=
  let end_date := end_date.getD now
  let start_date :=
    match start_date with
    | some s => s
    | none => get_period_start period end_date
  let strategy_trades :=
    strategy_window_trades trades strategy_name start_date end_date
  if strategy_trades.isEmpty then
    { strategy := strategy_name, period := period
      start_date := start_date, end_date := end_date }
  else
    let resolved := resolved_of strategy_trades
    let wins := resolved.filter (fun t => decide (t.status = TradeStatus.resolved_win))
    let losses := resolved.filter (fun t =>
      decide (t.status = TradeStatus.resolved_loss))
    let total_wagered := (strategy_trades.map (fun t => t.amount)).sum
    let total_pnl := (resolved.map (fun t => t.pnl.getD 0)).sum
    let clv_values := resolved.filterMap (fun t => t.clv)
    let avg_clv :=
      if clv_values.isEmpty then 0
      else clv_values.sum / (clv_values.length : ℚ)
    let clv_positive := clv_values.filter (fun c => decide (c > 0))
    { strategy := strategy_name
      period := period
      start_date := start_date
      end_date := end_date
      total_trades := strategy_trades.length
      open_trades :=
        (strategy_trades.filter (fun t =>
          decide (t.status = TradeStatus.open_))).length
      resolved_trades := resolved.length
      wins := wins.length
      losses := losses.length
      win_rate :=
        if resolved.isEmpty then 0 else (wins.length : ℚ) / (resolved.length : ℚ)
      total_wagered := total_wagered
      total_pnl := total_pnl
      roi := if total_wagered > 0 then total_pnl / total_wagered * 100 else 0
      avg_clv := avg_clv
      clv_positive_count := clv_positive.length
      clv_positive_rate :=
        if clv_values.isEmpty then 0
        else (clv_positive.length : ℚ) / (clv_values.length : ℚ)
      max_drawdown := calculate_max_drawdown resolved
      sharpe_ratio := calculate_sharpe resolved }

end StrategyEvaluator

/-!
Interleaving model of concurrent execute_opportunity requests (section 5
of the specification).  Each request runs in two atomic halves, split at
the await points of the source: first the snapshot read (get_positions,
get_exposure) together with the risk decision, then the ledger insert done
by the paper executor.  A schedule says which request moves next; the
source has no transaction or lock around the two halves.
-/

/-- One in-flight execute_opportunity request. -/
structure ProcState where
  opp : MarketOpportunity
  trade_id : String
  decision : Option RiskCheckResult
  result : Option TradeResult
deriving DecidableEq, Repr, BEq

/-- Advance one request by one atomic half against the current ledger. -/
def proc_step (settings : Settings) (engine : TradingEngine)
    (ledger : List Trade) (p : ProcState) (today_start now : ℤ) :
    ProcState × List Trade :=
  match p.decision with
  | none =>
    let positions := get_positions ledger
    let exposure := get_exposure settings ledger today_start
    let rc := engine.risk_manager.check_limits p.opp exposure positions
    ({ p with decision := some rc }, ledger)
  | some rc =>
    match p.result with
    | none =>
      if rc.allowed then
        let r := PaperTrader.execute_trade p.opp ledger p.trade_id now
        ({ p with result := some r.1 }, r.2)
      else
        let denied : TradeResult :=
          { success := false, trade := none, error := some rc.reason
            paper_trade := engine.paper_trading }
        ({ p with result := some denied }, ledger)
    | some _ => (p, ledger)

/-- Shared state: the ledger plus two in-flight requests. -/
structure ConcState where
  ledger : List Trade
  proc0 : ProcState
  proc1 : ProcState
deriving DecidableEq, Repr, BEq

/-- Run a schedule; false picks request 0, true picks request 1. -/
def run_schedule (settings : Settings) (engine : TradingEngine)
    (today_start now : ℤ) : List Bool → ConcState → ConcState
  | [], st => st
  | pick :: rest, st =>
    if pick then
      let r := proc_step settings engine st.ledger st.proc1 today_start now
      run_schedule settings engine today_start now rest
        { st with proc1 := r.1, ledger := r.2 }
    else
      let r := proc_step settings engine st.ledger st.proc0 today_start now
      run_schedule settings engine today_start now rest
        { st with proc0 := r.1, ledger := r.2 }

/-!
Concrete inputs used by the witnesses and counterexamples below.
-/

/-- A resolved template trade; concrete inputs override single fields. -/
def base_trade : Trade :=
  { id := "t", created_at := 0, platform := "polymarket", market_id := "m"
    market_question := "q", market_category := none, market_end_date := none
    side := .yes, entry_price := 1/2, amount := 10, shares := some 20
    strategy := "s", status := .resolved_win, resolution_date := some 0
    resolution_outcome := some .yes, closing_price := none, pnl := none
    roi := none, clv := none }

/-- An exposure report with all totals at zero. -/
def zero_exposure : ExposureReport :=
  { total_exposure := 0, available_capital := 0, position_count := 0
    by_platform := [], by_strategy := [], daily_traded := 0, daily_limit := 0
    daily_remaining := 0 }

/-- A market quoted at YES 0.60 / NO 0.40. -/
def market_c : Market :=
  { id := "polymarket:1", platform := "polymarket", market_id := "1"
    question := "q", category := none, end_date := none
    yes_price := some (3/5), no_price := some (2/5), volume := none }

/-- A 60-dollar YES opportunity on market_c. -/
def opp60 : MarketOpportunity :=
  { market := market_c, strategy := "test-strategy", signal_strength := 4/5
    recommended_side := .yes, recommended_amount := 60
    expected_value := 3/25, reasoning := "r" }

/-- Limits 50 per trade / 100 total / 120 daily / 1 per market. -/
def rm_c1 : RiskManager := RiskManager.mk_init 50 100 (some 120) 1

/-- Exposure already at 50, so a 60-dollar trade also breaks the 100 cap. -/
def exposure_c1 : ExposureReport := { zero_exposure with total_exposure := 50 }

/-- Drawdown example: resolution-date order d1 < d2 < d3 < d4 carries the
PnL sequence 10, 5, -20, 3; trade d2 has no resolution date and sorts by
its creation date. -/
def trade_dd1 : Trade :=
  { base_trade with id := "d1", resolution_date := some 1, pnl := some 10 }

/-- Second drawdown trade, sorted via the creation-date fallback. -/
def trade_dd2 : Trade :=
  { base_trade with
    id := "d2", resolution_date := none, created_at := 2,
    pnl := some 5 }

/-- Third drawdown trade, the -20 loss. -/
def trade_dd3 : Trade :=
  { base_trade with
    id := "d3", resolution_date := some 3, pnl := some (-20),
    status := .resolved_loss }

/-- Fourth drawdown trade. -/
def trade_dd4 : Trade :=
  { base_trade with id := "d4", resolution_date := some 4, pnl := some 3 }

/-- The drawdown trades, stored out of date order. -/
def drawdown_example : List Trade := [trade_dd3, trade_dd1, trade_dd4, trade_dd2]

/-- YES trade entered at 0.40 that closed at 0.60. -/
def trade_yes_clv : Trade :=
  { base_trade with side := .yes, entry_price := 2/5, closing_price := some (3/5) }

/-- NO trade entered at 0.40 with closing YES price 0.50. -/
def trade_no_clv : Trade :=
  { base_trade with side := .no, entry_price := 2/5, closing_price := some (1/2) }

/-- Engine with a 50-dollar max position size, paper mode. -/
def engine_c5 : TradingEngine :=
  { paper_trading := true, risk_manager := RiskManager.mk_init 50 1000 none 1 }

/-- Settings matching engine_c5. -/
def settings_c5 : Settings :=
  { max_position_size := 50, max_total_exposure := 1000, paper_trading := true }

/-- A market with no YES price quoted. -/
def market_no_price : Market := { market_c with yes_price := none }

/-- A small opportunity whose recommended side has no quoted price. -/
def opp_no_price : MarketOpportunity :=
  { opp60 with market := market_no_price, recommended_amount := 10 }

/-- Open trade: 100 dollars on platform A, strategy X, created today. -/
def trade_open_a : Trade :=
  { base_trade with
    id := "a", platform := "A", strategy := "X", amount := 100,
    status := .open_, created_at := 100, resolution_date := none }

/-- Open trade: 200 dollars on platform B, strategy Y, created today. -/
def trade_open_b : Trade :=
  { base_trade with
    id := "b", platform := "B", strategy := "Y", amount := 200,
    status := .open_, created_at := 100, resolution_date := none }

/-- Resolved trade: 50 dollars, created yesterday. -/
def trade_resolved_c : Trade :=
  { base_trade with
    id := "c", platform := "A", strategy := "Z", amount := 50,
    status := .resolved_win, created_at := 99 }

/-- The exposure-example ledger; local-day start is time 100. -/
def ledger_c6 : List Trade := [trade_open_a, trade_open_b, trade_resolved_c]

/-- Settings for the exposure example. -/
def settings_c6 : Settings :=
  { max_position_size := 100, max_total_exposure := 1000, paper_trading := true }

/-- Settings with a 100-dollar total-exposure cap for the concurrency run. -/
def settings_c7 : Settings :=
  { max_position_size := 100, max_total_exposure := 100, paper_trading := true }

/-- Engine built from settings_c7 (daily cap defaults to 200). -/
def engine_c7 : TradingEngine := TradingEngine.mk_init settings_c7

/-- First concurrency market. -/
def market_c7a : Market :=
  { market_c with
    id := "polymarket:m0", market_id := "m0",
    yes_price := some (1/2), no_price := some (1/2) }

/-- Second concurrency market. -/
def market_c7b : Market :=
  { market_c with
    id := "polymarket:m1", market_id := "m1",
    yes_price := some (1/2), no_price := some (1/2) }

/-- First 70-dollar opportunity. -/
def opp70a : MarketOpportunity :=
  { opp60 with market := market_c7a, recommended_amount := 70 }

/-- Second 70-dollar opportunity. -/
def opp70b : MarketOpportunity :=
  { opp60 with market := market_c7b, recommended_amount := 70 }

/-- Both requests pending against an empty ledger. -/
def conc_init : ConcState :=
  { ledger := []
    proc0 := { opp := opp70a, trade_id := "t0", decision := none, result := none }
    proc1 := { opp := opp70b, trade_id := "t1", decision := none, result := none } }

/-- Interleaved schedule: both requests snapshot the empty ledger before
either inserts. -/
def interleaved_run : ConcState :=
  run_schedule settings_c7 engine_c7 0 0 [false, true, false, true] conc_init

/-- Serialized schedule: request 0 completes before request 1 starts. -/
def serial_run : ConcState :=
  run_schedule settings_c7 engine_c7 0 0 [false, false, true, true] conc_init

/-- A winning trade with positive CLV, small size, no listed category:
no negative-list rule fires on it. -/
def trade_c8 : Trade :=
  { base_trade with entry_price := 1/2, closing_price := some (3/5) }

/-- Resolved trade with PnL -2 (sharpe example). -/
def trade_s1 : Trade :=
  { base_trade with
    id := "s1", strategy := "strat", created_at := 5,
    status := .resolved_loss, pnl := some (-2) }

/-- Resolved trade with PnL 1 (sharpe example). -/
def trade_s2 : Trade :=
  { base_trade with
    id := "s2", strategy := "strat", created_at := 5,
    status := .resolved_win, pnl := some 1 }

/-- Resolved trade with PnL 4 (sharpe example). -/
def trade_s3 : Trade :=
  { base_trade with
    id := "s3", strategy := "strat", created_at := 5,
    status := .resolved_win, pnl := some 4 }

/-- PnL sequence -2, 1, 4: mean 1, sample variance 9, stdev 3. -/
def trades_c9 : List Trade := [trade_s1, trade_s2, trade_s3]

/-- A single open trade of the same strategy (no resolved trades). -/
def trade_open_s : Trade :=
  { base_trade with
    id := "so", strategy := "strat", created_at := 5,
    status := .open_, resolution_date := none }

/-- RiskManager constructed with max_daily_volume = 0. -/
def rm_c10 : RiskManager := RiskManager.mk_init 100 1000 (some 0) 1

/-- The same record with a literal zero daily limit (what a non-falsy
constructor would have produced). -/
def rm_c10_literal : RiskManager :=
  { max_position_size := 100, max_total_exposure := 1000
    max_daily_volume := 0, max_positions_per_market := 1 }

/-- A 50-dollar opportunity, well inside every other limit. -/
def opp50 : MarketOpportunity := { opp60 with recommended_amount := 50 }

/-!
Helper lemmas shared by the claim theorems below.
-/

/-- A dict update at key k adds v to slot k and leaves other slots alone. -/
theorem dictGet_dictAdd (d : List (String × ℚ)) (k k' : String) (v : ℚ) :
    dictGet (dictAdd d k v) k'
      = if k = k' then dictGet d k' + v else dictGet d k' := by
  induction d with
  | nil =>
    by_cases h : k = k' <;> simp [dictAdd, dictGet, h]
  | cons a rest ih =>
    by_cases hak : a.1 = k
    · by_cases hk : k = k'
      · subst hk
        simp [dictAdd, dictGet, hak]
      · have hak' : a.1 ≠ k' := by rw [hak]; exact hk
        simp [dictAdd, dictGet, hak, hak', hk]
    · by_cases hk' : a.1 = k'
      · have hkk : ¬ k = k' := by
          intro hkk
          exact hak (by rw [hk', hkk])
        have hkk' : ¬ k' = k := fun h => hkk h.symm
        simp [dictAdd, dictGet, hak, hk', hkk, hkk']
      · simp [dictAdd, dictGet, hak, hk', ih]

/-- Folding dict updates over positions accumulates, per key, the amounts
of the positions whose key field matches. -/
theorem dictGet_foldl_amount (f : Position → String) (ps : List Position)
    (d : List (String × ℚ)) (k : String) :
    dictGet (ps.foldl (fun acc p => dictAdd acc (f p) p.amount) d) k
      = dictGet d k
          + ((ps.filter (fun p => decide (f p = k))).map
              (fun p => p.amount)).sum := by
  induction ps generalizing d with
  | nil => simp
  | cons p ps ih =>
    simp only [List.foldl_cons, ih, dictGet_dictAdd, List.filter_cons]
    by_cases h : f p = k
    · simp [h]
      ring
    · simp [h]

/-- A list completed with a placeholder is never empty. -/
theorem placeholder_if_empty_ne_nil (l : List String) (ph : String) :
    placeholder_if_empty l ph ≠ [] := by
  unfold placeholder_if_empty
  split
  · simp
  · rename_i h
    intro hc
    rw [hc] at h
    simp at h

/-- The positives list always ends in the placeholder branch. -/
theorem identify_positives_ne_nil (t : Trade) (won : Bool) (clv : Option ℚ) :
    ResolutionAnalyzer.identify_positives t won clv ≠ [] := by
  unfold ResolutionAnalyzer.identify_positives
  exact placeholder_if_empty_ne_nil _ _

/-- The suggestions list always ends in the placeholder branch. -/
theorem suggest_trade_improvements_ne_nil (t : Trade) (won : Bool)
    (clv : Option ℚ) :
    ResolutionAnalyzer.suggest_trade_improvements t won clv ≠ [] := by
  unfold ResolutionAnalyzer.suggest_trade_improvements
  exact placeholder_if_empty_ne_nil _ _

/-- One drawdown step never decreases the running maximum drawdown. -/
theorem drawdown_step_le (state : ℚ × ℚ × ℚ) (pnl : ℚ) :
    state.2.2 ≤ (StrategyEvaluator.drawdown_step state pnl).2.2 := by
  unfold StrategyEvaluator.drawdown_step
  dsimp only
  split_ifs <;> linarith

/-- The drawdown fold never decreases the running maximum drawdown. -/
theorem drawdown_foldl_le (l : List Trade) :
    ∀ state : ℚ × ℚ × ℚ,
      state.2.2 ≤ (l.foldl
        (fun st t => StrategyEvaluator.drawdown_step st (t.pnl.getD 0))
        state).2.2 := by
  induction l with
  | nil =>
    intro state
    simp
  | cons t l ih =>
    intro state
    simp only [List.foldl_cons]
    exact le_trans (drawdown_step_le state (t.pnl.getD 0)) (ih _)

unseal List.merge List.mergeSort in
/-- The drawdown example sorts into resolution-date order, trade d2 via
its creation-date fallback. -/
theorem drawdown_example_sorted :
    drawdown_example.mergeSort StrategyEvaluator.drawdown_le
      = [trade_dd1, trade_dd2, trade_dd3, trade_dd4] := rfl

/-- The drawdown of the example PnL sequence 10, 5, -20, 3 is 20. -/
theorem drawdown_example_value :
    StrategyEvaluator.calculate_max_drawdown drawdown_example = 20 := by
  unfold StrategyEvaluator.calculate_max_drawdown
  rw [drawdown_example_sorted]
  norm_num [List.foldl, StrategyEvaluator.drawdown_step, trade_dd1, trade_dd2,
    trade_dd3, trade_dd4, base_trade, drawdown_example]

/-- The projection to PnL returns preserves length. -/
theorem pnl_returns_length (trades : List Trade) :
    (StrategyEvaluator.pnl_returns trades).length = trades.length := by
  simp [StrategyEvaluator.pnl_returns]

/-- The sample variance of at least two returns is non-negative. -/
theorem var_pnl_nonneg (trades : List Trade) (h : 2 ≤ trades.length) :
    0 ≤ StrategyEvaluator.var_pnl trades := by
  unfold StrategyEvaluator.var_pnl
  apply div_nonneg
  · apply List.sum_nonneg
    intro x hx
    simp only [List.mem_map] at hx
    obtain ⟨r, _, rfl⟩ := hx
    positivity
  · rw [pnl_returns_length]
    have : (2 : ℚ) ≤ (trades.length : ℚ) := by exact_mod_cast h
    linarith

/-- The Sharpe-like ratio is None exactly on fewer than two trades or zero
variance. -/
theorem calculate_sharpe_none_iff (trades : List Trade) :
    StrategyEvaluator.calculate_sharpe trades = none
      ↔ trades.length < 2 ∨ StrategyEvaluator.var_pnl trades = 0 := by
  unfold StrategyEvaluator.calculate_sharpe
  split_ifs with h1 h2
  · simp [h1]
  · have hv : 0 ≤ StrategyEvaluator.var_pnl trades :=
      var_pnl_nonneg trades (by omega)
    simp [h1, le_antisymm h2 hv]
  · have hne : StrategyEvaluator.var_pnl trades ≠ 0 := by
      intro h0
      rw [h0] at h2
      exact h2 le_rfl
    simp [h1, hne]

/-- A defined Sharpe-like ratio divides by a provably nonzero standard
deviation and equals the rounded mean-over-stdev. -/
theorem calculate_sharpe_some (trades : List Trade) (r : ℝ)
    (h : StrategyEvaluator.calculate_sharpe trades = some r) :
    Real.sqrt ((StrategyEvaluator.var_pnl trades : ℚ) : ℝ) ≠ 0 ∧
      r = round2_real ((StrategyEvaluator.mean_pnl trades : ℝ)
        / Real.sqrt ((StrategyEvaluator.var_pnl trades : ℚ) : ℝ)) := by
  unfold StrategyEvaluator.calculate_sharpe at h
  split_ifs at h with h1 h2
  have hpos : (0 : ℝ) < ((StrategyEvaluator.var_pnl trades : ℚ) : ℝ) := by
    have := lt_of_not_le h2
    exact_mod_cast this
  exact ⟨ne_of_gt (Real.sqrt_pos.mpr hpos), (Option.some.inj h).symm⟩

/-!
Claim theorems.
-/

/-- C1: check_limits evaluates the four limits in the fixed order
max_position_size, max_total_exposure, daily_volume, positions_per_market
and returns on the first failure - it coincides with the spec-side
first-failure function - and in particular an opportunity that exceeds
both the per-trade cap and the remaining total-exposure headroom is
denied with the limit tag max_position_size. -/
theorem check_limits_first_failure_order :
    (∀ (rm : RiskManager) (opp : MarketOpportunity)
      (exposure : ExposureReport) (positions : List Position),
      rm.check_limits opp exposure positions
        = check_limits_spec rm opp exposure positions) ∧
    (∀ (rm : RiskManager) (opp : MarketOpportunity)
      (exposure : ExposureReport) (positions : List Position),
      opp.recommended_amount > rm.max_position_size →
      exposure.total_exposure + opp.recommended_amount
          > rm.max_total_exposure →
      (rm.check_limits opp exposure positions).allowed = false ∧
        ((rm.check_limits opp exposure positions).details).limit
          = some ("max_position_size")) := by
  constructor
  · intro rm opp exposure positions
    simp only [RiskManager.check_limits, check_limits_spec]
    split_ifs with h1 h2 h3 h4
    · simp [List.find?, h1]
    · simp [List.find?, h1, h2]
    · simp [List.find?, h1, h2, h3]
    · simp [List.find?, h1, h2, h3, h4]
    · simp [List.find?, h1, h2, h3, h4]
  · intro rm opp exposure positions h1 h2
    constructor
    · simp [RiskManager.check_limits, h1]
    · simp [RiskManager.check_limits, h1, RiskDetails.limit]

/-- Witness for C1: the 60-dollar opportunity against a 50-dollar
per-trade cap with 50 dollars already exposed under the 100-dollar cap. -/
theorem check_limits_first_failure_order_witness :
    (RiskManager.check_limits rm_c1 opp60 exposure_c1 []).allowed = false ∧
      ((RiskManager.check_limits rm_c1 opp60 exposure_c1 []).details).limit
        = some ("max_position_size") :=
  check_limits_first_failure_order.2 rm_c1 opp60 exposure_c1 []
    (by norm_num [opp60, rm_c1, RiskManager.mk_init])
    (by norm_num [exposure_c1, zero_exposure, opp60, rm_c1,
      RiskManager.mk_init])

/-- C2 (amended): the max-drawdown computation sorts resolved trades by
resolution date with creation-date fallback, folds PnL against a running
peak, and returns the largest peak-to-trough gap, a non-negative value;
on the per-trade PnL sequence 10, 5, -20, 3 (running peak 15, trough -5)
it returns 20. -/
theorem calculate_max_drawdown_nonneg_and_example :
    (∀ trades : List Trade,
      0 ≤ StrategyEvaluator.calculate_max_drawdown trades) ∧
    StrategyEvaluator.calculate_max_drawdown drawdown_example = 20 := by
  constructor
  · intro trades
    unfold StrategyEvaluator.calculate_max_drawdown
    split
    · exact le_refl 0
    · simpa using drawdown_foldl_le
        (trades.mergeSort StrategyEvaluator.drawdown_le)
        ((0 : ℚ), (0 : ℚ), (0 : ℚ))
  · exact drawdown_example_value

/-- C2 fails as stated: on the PnL sequence 10, 5, -20, 3 the code
returns a max drawdown of 20 (peak 15, trough -5), not the claimed 35. -/
theorem drawdown_example_not_35 :
    StrategyEvaluator.calculate_max_drawdown drawdown_example = 20 ∧
      (20 : ℚ) ≠ 35 := by
  constructor
  · exact drawdown_example_value
  · norm_num

/-- C3: CLV is None exactly when the closing price is absent, and is
otherwise the side-adjusted percentage of the entry price rounded to two
decimals; YES at 0.40 closing 0.60 gives +50.0, NO at 0.40 with closing
YES price 0.50 gives +16.67. -/
theorem calculate_clv_formula :
    (∀ t : Trade, t.closing_price = none →
      ResolutionAnalyzer.calculate_clv t = none) ∧
    (∀ (t : Trade) (cp : ℚ), t.closing_price = some cp → t.side = .yes →
      ResolutionAnalyzer.calculate_clv t
        = some (round2 (((cp - t.entry_price) / t.entry_price) * 100))) ∧
    (∀ (t : Trade) (cp : ℚ), t.closing_price = some cp → t.side = .no →
      ResolutionAnalyzer.calculate_clv t
        = some (round2 ((((1 - t.entry_price) - cp)
            / (1 - t.entry_price)) * 100))) ∧
    ResolutionAnalyzer.calculate_clv trade_yes_clv = some 50 ∧
    ResolutionAnalyzer.calculate_clv trade_no_clv = some (1667/100) := by
  refine ⟨?_, ?_, ?_, ?_, ?_⟩
  · intro t hcp
    simp [ResolutionAnalyzer.calculate_clv, hcp]
  · intro t cp hcp hside
    simp [ResolutionAnalyzer.calculate_clv, hcp, hside]
  · intro t cp hcp hside
    simp [ResolutionAnalyzer.calculate_clv, hcp, hside]
  · simp only [ResolutionAnalyzer.calculate_clv, trade_yes_clv, base_trade]
    norm_num [round2, round_eq]
  · simp only [ResolutionAnalyzer.calculate_clv, trade_no_clv, base_trade]
    norm_num [round2, round_eq]

/-- Witness for C3: the YES formula instantiated on the concrete trade. -/
theorem calculate_clv_formula_witness :
    ResolutionAnalyzer.calculate_clv trade_yes_clv
      = some (round2 (((3/5 - trade_yes_clv.entry_price)
          / trade_yes_clv.entry_price) * 100)) :=
  calculate_clv_formula.2.1 trade_yes_clv (3/5) rfl rfl

/-- C4 fails as stated: on a YES trade entered at 0.40 that closed at
0.60, the resolution script computes a raw-difference CLV of 0.2 while
the analyzer computes 50.0 percent; no 2-decimal rounding reconciles
them. -/
theorem clv_two_formulas_counterexample :
    (check_resolutions.calculate_clv trade_yes_clv (3/5)).1 = 1/5 ∧
      ResolutionAnalyzer.calculate_clv trade_yes_clv = some 50 ∧
      ((1 : ℚ)/5) ≠ 50 := by
  refine ⟨?_, ?_, by norm_num⟩
  · norm_num [check_resolutions.calculate_clv, trade_yes_clv, base_trade]
  · simp only [ResolutionAnalyzer.calculate_clv, trade_yes_clv, base_trade]
    norm_num [round2, round_eq]

/-- C4 (amended): the two call sites do not share one canonical formula.
The script returns a raw price difference; for every YES trade with a
closing price, the analyzer's CLV is the script's raw difference rescaled
as a percentage of the entry price and rounded to two decimals. -/
theorem script_clv_rescaled_is_analyzer_clv (t : Trade) (cp : ℚ)
    (hside : t.side = .yes) (hcp : t.closing_price = some cp) :
    ResolutionAnalyzer.calculate_clv t
      = some (round2 ((check_resolutions.calculate_clv t cp).1
          / t.entry_price * 100)) := by
  simp [ResolutionAnalyzer.calculate_clv, check_resolutions.calculate_clv,
    hside, hcp]

/-- Witness for the amended C4 on the concrete YES trade. -/
theorem script_clv_rescaled_is_analyzer_clv_witness :
    ResolutionAnalyzer.calculate_clv trade_yes_clv
      = some (round2 ((check_resolutions.calculate_clv trade_yes_clv
          (3/5)).1 / trade_yes_clv.entry_price * 100)) :=
  script_clv_rescaled_is_analyzer_clv trade_yes_clv (3/5) rfl rfl

/-- C5: a denied risk check and an unpriceable recommended side each fail
the call with the named reason and leave the ledger unchanged. -/
theorem execute_opportunity_failure_preserves_ledger :
    (∀ (engine : TradingEngine) (settings : Settings) (ledger : List Trade)
      (opp : MarketOpportunity) (ts : ℤ) (tid : String) (now : ℤ),
      (engine.risk_manager.check_limits opp (get_exposure settings ledger ts)
          (get_positions ledger)).allowed = false →
      engine.execute_opportunity settings ledger opp false ts tid now
        = ({ success := false, trade := none,
             error := some (engine.risk_manager.check_limits opp
               (get_exposure settings ledger ts)
               (get_positions ledger)).reason,
             paper_trade := engine.paper_trading }, ledger)) ∧
    (∀ (opp : MarketOpportunity) (ledger : List Trade) (tid : String)
      (now : ℤ) (p : ℚ),
      (recommended_entry_price opp = none ∨
        (recommended_entry_price opp = some p ∧ p ≤ 0)) →
      PaperTrader.execute_trade opp ledger tid now
        = ({ success := false, trade := none,
             error := some ("Invalid entry price"), paper_trade := true },
            ledger)) := by
  constructor
  · intro engine settings ledger opp ts tid now h
    simp [TradingEngine.execute_opportunity, h]
  · intro opp ledger tid now p h
    rcases h with h | ⟨hp, hle⟩
    · simp [PaperTrader.execute_trade, h]
    · simp [PaperTrader.execute_trade, hp, hle]

/-- Witness for C5: a 60-dollar opportunity against a 50-dollar cap and a
market with no quoted price, both on the empty ledger. -/
theorem execute_opportunity_failure_preserves_ledger_witness :
    engine_c5.execute_opportunity settings_c5 [] opp60 false 0 "t0" 0
      = ({ success := false, trade := none,
           error := some (engine_c5.risk_manager.check_limits opp60
             (get_exposure settings_c5 [] 0) (get_positions [])).reason,
           paper_trade := engine_c5.paper_trading }, []) ∧
    PaperTrader.execute_trade opp_no_price [] "t0" 0
      = ({ success := false, trade := none,
           error := some ("Invalid entry price"), paper_trade := true },
          []) :=
  ⟨execute_opportunity_failure_preserves_ledger.1 engine_c5 settings_c5 []
      opp60 0 "t0" 0
      (by norm_num [RiskManager.check_limits, engine_c5, RiskManager.mk_init,
        opp60, market_c, get_exposure, get_positions, settings_c5]),
    execute_opportunity_failure_preserves_ledger.2 opp_no_price [] "t0" 0 0
      (Or.inl (by norm_num [recommended_entry_price, opp_no_price, opp60,
        market_no_price, market_c]))⟩

/-- C6: get_exposure reports total exposure as the sum over Open trades,
the position count as the number of Open trades, the per-platform and
per-strategy dicts as groupings of the Open amounts, and daily volume as
the sum over all trades created since day start; on the concrete ledger
the figures are 300, 2, A:100 / B:200, and a daily total that excludes
yesterday's 50. -/
theorem get_exposure_aggregation :
    (∀ (s : Settings) (l : List Trade) (ts : ℤ),
      (get_exposure s l ts).total_exposure
        = ((l.filter (fun t => decide (t.status = TradeStatus.open_))).map
            (fun t => t.amount)).sum) ∧
    (∀ (s : Settings) (l : List Trade) (ts : ℤ),
      (get_exposure s l ts).position_count
        = (l.filter (fun t => decide (t.status = TradeStatus.open_))).length) ∧
    (∀ (s : Settings) (l : List Trade) (ts : ℤ) (k : String),
      dictGet (get_exposure s l ts).by_platform k
        = (((l.filter (fun t => decide (t.status = TradeStatus.open_))).filter
            (fun t => decide (t.platform = k))).map (fun t => t.amount)).sum) ∧
    (∀ (s : Settings) (l : List Trade) (ts : ℤ) (k : String),
      dictGet (get_exposure s l ts).by_strategy k
        = (((l.filter (fun t => decide (t.status = TradeStatus.open_))).filter
            (fun t => decide (t.strategy = k))).map (fun t => t.amount)).sum) ∧
    (∀ (s : Settings) (l : List Trade) (ts : ℤ),
      (get_exposure s l ts).daily_traded
        = ((l.filter (fun t => decide (ts ≤ t.created_at))).map
            (fun t => t.amount)).sum) ∧
    ((get_exposure settings_c6 ledger_c6 100).total_exposure = 300 ∧
      (get_exposure settings_c6 ledger_c6 100).position_count = 2 ∧
      (get_exposure settings_c6 ledger_c6 100).by_platform
        = [("A", 100), ("B", 200)] ∧
      (get_exposure settings_c6 ledger_c6 100).by_strategy
        = [("X", 100), ("Y", 200)] ∧
      (get_exposure settings_c6 ledger_c6 100).daily_traded = 300) := by
  refine ⟨?_, ?_, ?_, ?_, ?_, ?_⟩
  · intro s l ts
    simp [get_exposure, get_positions, List.map_map, Function.comp_def]
  · intro s l ts
    simp [get_exposure, get_positions]
  · intro s l ts k
    simp only [get_exposure]
    rw [dictGet_foldl_amount]
    simp [dictGet, get_positions, List.filter_map, List.map_map,
      Function.comp_def]
  · intro s l ts k
    simp only [get_exposure]
    rw [dictGet_foldl_amount]
    simp [dictGet, get_positions, List.filter_map, List.map_map,
      Function.comp_def]
  · intro s l ts
    simp [get_exposure]
  · refine ⟨?_, ?_, ?_, ?_, ?_⟩ <;>
      norm_num +decide [get_exposure, get_positions, ledger_c6, trade_open_a,
        trade_open_b, trade_resolved_c, base_trade, settings_c6, dictAdd,
        Function.comp_def]

/-- C7: the check-then-insert sequence is not atomic.  Under the
interleaved schedule both 70-dollar requests pass the risk check against
the stale empty snapshot and both insert, leaving 140 dollars of exposure
against the 100-dollar cap; only the serialized schedule denies the
second request with max_total_exposure. -/
theorem concurrent_execution_overshoots_cap :
    interleaved_run.ledger.length = 2 ∧
    (interleaved_run.ledger.map (fun t => t.amount)).sum = 140 ∧
    engine_c7.risk_manager.max_total_exposure = 100 ∧
    interleaved_run.proc0.result.map (fun r => r.success) = some true ∧
    interleaved_run.proc1.result.map (fun r => r.success) = some true ∧
    serial_run.proc0.result.map (fun r => r.success) = some true ∧
    serial_run.proc1.result.map (fun r => r.success) = some false ∧
    serial_run.proc1.decision.map (fun rc => rc.details.limit)
      = some (some ("max_total_exposure")) ∧
    serial_run.ledger.length = 1 := by
  norm_num +decide [interleaved_run, serial_run, run_schedule, conc_init,
    proc_step, TradingEngine.mk_init, engine_c7, settings_c7, opp70a, opp70b,
    opp60, market_c7a, market_c7b, market_c, get_exposure, get_positions,
    PaperTrader.execute_trade, recommended_entry_price,
    RiskManager.check_limits, RiskManager.mk_init, dictAdd, RiskDetails.limit]

/-- C8 fails as stated: this resolved winning trade with positive CLV,
small size and no listed category produces an empty what_went_wrong list,
with no placeholder. -/
theorem analyze_negatives_empty_counterexample :
    (ResolutionAnalyzer.analyze_resolved_trade trade_c8).toOption.map
        TradeAnalysis.what_went_wrong = some [] := by
  norm_num +decide [ResolutionAnalyzer.analyze_resolved_trade,
    ResolutionAnalyzer.identify_negatives, ResolutionAnalyzer.calculate_clv,
    ResolutionAnalyzer.calculate_pnl, round2, round_eq, trade_c8, base_trade,
    py_or_q, Except.toOption]

/-- C8 (amended): for every analyzable trade, what_went_right and
suggested_improvements end in a placeholder branch and are never empty;
what_went_wrong has no placeholder and may be empty. -/
theorem analyze_lists_nonempty (t : Trade)
    (h : (ResolutionAnalyzer.analyze_resolved_trade t).toOption ≠ none) :
    (ResolutionAnalyzer.analyze_resolved_trade t).toOption.map
        TradeAnalysis.what_went_right ≠ some [] ∧
    (ResolutionAnalyzer.analyze_resolved_trade t).toOption.map
        TradeAnalysis.suggested_improvements ≠ some [] := by
  unfold ResolutionAnalyzer.analyze_resolved_trade at h ⊢
  by_cases hc : (decide (t.status = TradeStatus.resolved_win) ||
      decide (t.status = TradeStatus.resolved_loss)) = false
  · rw [if_pos hc] at h
    simp [Except.toOption] at h
  · rw [if_neg hc] at h ⊢
    simp only [Except.toOption, Option.map_some', ne_eq, Option.some.injEq]
    constructor
    · exact identify_positives_ne_nil t _ _
    · exact suggest_trade_improvements_ne_nil t _ _

/-- Witness for the amended C8 on a concrete resolved trade. -/
theorem analyze_lists_nonempty_witness :
    (ResolutionAnalyzer.analyze_resolved_trade trade_dd1).toOption.map
        TradeAnalysis.what_went_right ≠ some [] ∧
    (ResolutionAnalyzer.analyze_resolved_trade trade_dd1).toOption.map
        TradeAnalysis.suggested_improvements ≠ some [] :=
  analyze_lists_nonempty trade_dd1
    (by norm_num +decide [ResolutionAnalyzer.analyze_resolved_trade,
      trade_dd1, base_trade, Except.toOption, py_or_q,
      ResolutionAnalyzer.calculate_pnl, ResolutionAnalyzer.calculate_clv])

/-- C9 (amended): evaluate_strategy never divides by zero.  The win rate
is 0 whenever the window holds no resolved trades; the Sharpe-like ratio
is None when the window holds fewer than two resolved trades, None exactly
on fewer than two trades or zero variance, and otherwise equals the mean
PnL over the (provably nonzero) standard deviation, rounded to two
decimals. -/
theorem evaluate_strategy_division_safety :
    (∀ (trades : List Trade) (name period : String) (sd ed : Option ℤ)
      (now : ℤ),
      (StrategyEvaluator.evaluate_strategy trades name period sd ed
          now).resolved_trades = 0 →
      (StrategyEvaluator.evaluate_strategy trades name period sd ed
          now).win_rate = 0) ∧
    (∀ (trades : List Trade) (name period : String) (sd ed : Option ℤ)
      (now : ℤ),
      (StrategyEvaluator.evaluate_strategy trades name period sd ed
          now).resolved_trades < 2 →
      (StrategyEvaluator.evaluate_strategy trades name period sd ed
          now).sharpe_ratio = none) ∧
    (∀ trades : List Trade,
      StrategyEvaluator.calculate_sharpe trades = none ↔
        trades.length < 2 ∨ StrategyEvaluator.var_pnl trades = 0) ∧
    (∀ (trades : List Trade) (r : ℝ),
      StrategyEvaluator.calculate_sharpe trades = some r →
      Real.sqrt ((StrategyEvaluator.var_pnl trades : ℚ) : ℝ) ≠ 0 ∧
        r = round2_real ((StrategyEvaluator.mean_pnl trades : ℝ)
          / Real.sqrt ((StrategyEvaluator.var_pnl trades : ℚ) : ℝ))) := by
  refine ⟨?_, ?_, calculate_sharpe_none_iff, calculate_sharpe_some⟩
  · intro trades name period sd ed now
    simp only [StrategyEvaluator.evaluate_strategy]
    split
    · intro _
      rfl
    · intro h
      dsimp only at h ⊢
      rw [List.length_eq_zero] at h
      simp [h]
  · intro trades name period sd ed now
    simp only [StrategyEvaluator.evaluate_strategy]
    split
    · intro _
      rfl
    · intro h
      dsimp only at h ⊢
      exact (calculate_sharpe_none_iff _).mpr (Or.inl h)

/-- Witness for C9: a window holding one open trade and nothing resolved
has win rate 0. -/
theorem evaluate_strategy_division_safety_witness :
    (StrategyEvaluator.evaluate_strategy [trade_open_s] "strat" "all_time"
        (some 0) (some 10) 10).win_rate = 0 :=
  evaluate_strategy_division_safety.1 [trade_open_s] "strat" "all_time"
    (some 0) (some 10) 10
    (by norm_num +decide [StrategyEvaluator.evaluate_strategy,
      StrategyEvaluator.strategy_window_trades, StrategyEvaluator.resolved_of,
      trade_open_s, base_trade])

/-- C9 fails as stated: on PnLs -2, 1, 4 (mean 1, stdev 3) the code
returns the rounded 0.33, which is not mean/stdev = 1/3. -/
theorem sharpe_rounding_counterexample :
    StrategyEvaluator.calculate_sharpe trades_c9 = some ((33 : ℝ)/100) ∧
      ((33 : ℝ)/100) ≠ (1 : ℝ)/3 := by
  constructor
  · have hvar : StrategyEvaluator.var_pnl trades_c9 = 9 := by
      norm_num [StrategyEvaluator.var_pnl, StrategyEvaluator.mean_pnl,
        StrategyEvaluator.pnl_returns, trades_c9, trade_s1, trade_s2,
        trade_s3, base_trade]
    have hmean : StrategyEvaluator.mean_pnl trades_c9 = 1 := by
      norm_num [StrategyEvaluator.mean_pnl, StrategyEvaluator.pnl_returns,
        trades_c9, trade_s1, trade_s2, trade_s3, base_trade]
    unfold StrategyEvaluator.calculate_sharpe
    rw [if_neg (by norm_num [trades_c9])]
    rw [if_neg (by rw [hvar]; norm_num)]
    rw [hvar, hmean]
    have hsqrt : Real.sqrt (((9 : ℚ) : ℝ)) = 3 := by
      rw [show (((9 : ℚ)) : ℝ) = (3 : ℝ) ^ 2 by norm_num]
      exact Real.sqrt_sq (by norm_num)
    rw [hsqrt]
    unfold round2_real
    norm_num [round_eq]
  · norm_num

/-- C10: a RiskManager constructed with max_daily_volume = 0 treats the
zero as unset and enforces a daily cap of twice the total-exposure cap; a
50-dollar trade passes all checks while the same record with a literal
zero daily cap denies it with the daily_volume tag. -/
theorem daily_volume_falsy_zero :
    (∀ (mps mte : ℚ) (mppm : ℕ),
      (RiskManager.mk_init mps mte (some 0) mppm).max_daily_volume
        = mte * 2) ∧
    (RiskManager.check_limits rm_c10 opp50 zero_exposure []).allowed
        = true ∧
    ((RiskManager.check_limits rm_c10_literal opp50 zero_exposure
        []).details).limit = some ("daily_volume") := by
  refine ⟨?_, ?_, ?_⟩
  · intro mps mte mppm
    simp [RiskManager.mk_init]
  · norm_num [RiskManager.check_limits, rm_c10, RiskManager.mk_init, opp50,
      opp60, zero_exposure, market_c]
  · norm_num [RiskManager.check_limits, rm_c10_literal, opp50, opp60,
      zero_exposure, market_c, RiskDetails.limit]
